import Mathlib

/-
Shallow embedding of the zebra-chain fixture registry
(`zebra-chain/src/test_utils/vectors.rs`) and the consensus constants
(`zebra-chain/src/parameters/genesis.rs`,
`zebra-chain/src/parameters/network/constants.rs`).

The raw blockchain byte tables (`BLOCK_MAINNET_653599_BYTES`, the
`MAINNET_BLOCKS` map, ...) and the deserialization routine
(`zcash_deserialize_into`) live in external crates (`zebra-test` and the
serialization module) and are opaque to the code under study, so the
embedding is parametrized over them via a `FixtureEnv` record: every
theorem quantifies over all possible contents of the external tables and
all possible deserializer behaviours.
-/

set_option autoImplicit false

/-- The network enumeration (`zebra_chain::parameters::Network`): a closed
variant set with exactly the two cases matched in `vectors.rs`. -/
inductive Network where
  | Mainnet
  | Testnet
  deriving DecidableEq, Repr

/-- The error type returned by the registry
(`zebra_chain::serialization::SerializationError`), restricted to the
variants the code under study can produce or propagate: the four
"not a cached ..." variants constructed in `vectors.rs`, plus `Parse`
standing for a deserialization failure propagated from the external
deserializer. -/
inductive SerializationError where
  | Parse (msg : String)
  | NotACachedMainNetBlock (v : Nat)
  | NotACachedTestNetBlock (v : Nat)
  | NotACachedMainNetSaplingRootBytes (v : Nat)
  | NotACachedTestNetSaplingRootBytes (v : Nat)
  deriving DecidableEq, Repr

/-- Modelled from the spec: the external fixture-data provider
(`zebra_test::vectors`) and the external deserialization routine, which
are imported by `vectors.rs` but are not part of the code under study.
The spec treats them as "opaque immutable blobs supplied by a separate
fixture-data provider" and an "external deserialization routine that
itself reports malformed input", so each named static is a field of
unconstrained content; byte sequences are lists of byte values, the
`BTreeMap` statics are lookup functions from `u32` height to an optional
value, and `Block` (the external block domain object) is an arbitrary
type parameter. -/
structure FixtureEnv (Block : Type) where
  BLOCK_MAINNET_653599_BYTES : List Nat
  BLOCK_MAINNET_982681_BYTES : List Nat
  BLOCK_MAINNET_1046400_BYTES : List Nat
  BLOCK_TESTNET_583999_BYTES : List Nat
  BLOCK_TESTNET_925483_BYTES : List Nat
  BLOCK_TESTNET_1116000_BYTES : List Nat
  SAPLING_FINAL_ROOT_MAINNET_1046400_BYTES : List Nat
  SAPLING_FINAL_ROOT_TESTNET_1116000_BYTES : List Nat
  MAINNET_BLOCKS : Nat → Option (List Nat)
  TESTNET_BLOCKS : Nat → Option (List Nat)
  MAINNET_FINAL_SPROUT_ROOTS : Nat → Option (List Nat)
  TESTNET_FINAL_SPROUT_ROOTS : Nat → Option (List Nat)
  zcash_deserialize_into : List Nat → Except SerializationError Block

/-- `Network::is_mainnet` (vectors.rs lines 25-30). -/
def Network.is_mainnet : Network → Bool
  | .Mainnet => true
  | .Testnet => false

/-- `Network::is_default_testnet` (vectors.rs lines 32-37). -/
def Network.is_default_testnet : Network → Bool
  | .Mainnet => false
  | .Testnet => true

/-- `Network::get_block_map` (vectors.rs lines 49-55): the sparse
per-network map of heights to block bytes. -/
def Network.get_block_map {Block : Type} (n : Network) (env : FixtureEnv Block) :
    Nat → Option (List Nat) :=
  if n.is_mainnet then env.MAINNET_BLOCKS else env.TESTNET_BLOCKS

/-- `Network::get_gen_block` (vectors.rs lines 58-65): the entry at
height 0 of the per-network sparse block map (`.get(&0).cloned()`;
cloning a borrowed byte slice is the identity on its contents). -/
def Network.get_gen_block {Block : Type} (n : Network) (env : FixtureEnv Block) :
    Option (List Nat) :=
  if n.is_mainnet then env.MAINNET_BLOCKS 0 else env.TESTNET_BLOCKS 0

/-- `Network::get_block_bytes` (vectors.rs lines 68-86): dispatch on the
network, then match the relevant candidate value against the known
per-network byte lengths, deserializing the matched cached bytes or
reporting the supplied value in a family-tagged error. -/
def Network.get_block_bytes {Block : Type} (n : Network) (env : FixtureEnv Block)
    (main_bytes test_bytes : Nat) : Except SerializationError Block :=
  if n.is_mainnet then
    match main_bytes with
    | 653599 => env.zcash_deserialize_into env.BLOCK_MAINNET_653599_BYTES
    | 982681 => env.zcash_deserialize_into env.BLOCK_MAINNET_982681_BYTES
    | _ => Except.error (SerializationError.NotACachedMainNetBlock main_bytes)
  else
    match test_bytes with
    | 583999 => env.zcash_deserialize_into env.BLOCK_TESTNET_583999_BYTES
    | 925483 => env.zcash_deserialize_into env.BLOCK_TESTNET_925483_BYTES
    | _ => Except.error (SerializationError.NotACachedTestNetBlock test_bytes)

/-- `Network::get_block_sapling_roots_bytes` (vectors.rs lines 136-162):
dispatch on the network, then match the relevant candidate value against
the single known per-network height, returning the cached block bytes
paired with the dereferenced 32-byte sapling root, or the supplied value
in a family-tagged error. -/
def Network.get_block_sapling_roots_bytes {Block : Type} (n : Network)
    (env : FixtureEnv Block) (main_bytes test_bytes : Nat) :
    Except SerializationError (List Nat × List Nat) :=
  if n.is_mainnet then
    match main_bytes with
    | 1046400 =>
      Except.ok (env.BLOCK_MAINNET_1046400_BYTES,
        env.SAPLING_FINAL_ROOT_MAINNET_1046400_BYTES)
    | _ =>
      Except.error (SerializationError.NotACachedMainNetSaplingRootBytes main_bytes)
  else
    match test_bytes with
    | 1116000 =>
      Except.ok (env.BLOCK_TESTNET_1116000_BYTES,
        env.SAPLING_FINAL_ROOT_TESTNET_1116000_BYTES)
    | _ =>
      Except.error (SerializationError.NotACachedTestNetSaplingRootBytes test_bytes)

/-- `Network::get_block_sprout_roots_height` (vectors.rs lines 165-190):
the per-network sparse block map, the per-network sprout-root map, and
the height of the first JoinSplit on that network. -/
def Network.get_block_sprout_roots_height {Block : Type} (n : Network)
    (env : FixtureEnv Block) :
    (Nat → Option (List Nat)) × (Nat → Option (List Nat)) × Nat :=
  let MAINNET_FIRST_JOINSPLIT_HEIGHT : Nat := 396
  let TESTNET_FIRST_JOINSPLIT_HEIGHT : Nat := 2259
  if n.is_mainnet then
    (env.MAINNET_BLOCKS, env.MAINNET_FINAL_SPROUT_ROOTS,
      MAINNET_FIRST_JOINSPLIT_HEIGHT)
  else
    (env.TESTNET_BLOCKS, env.TESTNET_FINAL_SPROUT_ROOTS,
      TESTNET_FIRST_JOINSPLIT_HEIGHT)

/-- `block::Hash`: a 32-byte block hash (`pub struct Hash(pub [u8; 32])`),
modelled with its byte array as a list of byte values. -/
structure Hash where
  bytes : List Nat
  deriving DecidableEq, Repr

/-- `GENESIS_PREVIOUS_BLOCK_HASH` (genesis.rs line 11):
`block::Hash([0; 32])`. -/
def GENESIS_PREVIOUS_BLOCK_HASH : Hash :=
  Hash.mk (List.replicate 32 0)

/-- Modelled from the spec: the per-network accessor
`genesisParentHash(network)` of spec section 4.1, which "returns the
all-zero constant for every current network"; the code under study
supplies only the single constant `GENESIS_PREVIOUS_BLOCK_HASH`, shared
by all networks. -/
def genesisParentHash (_ : Network) : Hash :=
  GENESIS_PREVIOUS_BLOCK_HASH

/-- `block::Height`: a block height newtype over `u32`. -/
structure Height where
  height : Nat
  deriving DecidableEq, Repr

/-- `FIRST_HALVING_TESTNET` (constants.rs line 7): `Height(1_116_000)`. -/
def FIRST_HALVING_TESTNET : Height :=
  Height.mk 1116000

/-- Modelled from the spec: the total per-network accessor
`firstHalvingHeight(network)` of spec section 4.1 ("no error path —
every network variant has a defined value"); the code under study
supplies only the testnet constant `FIRST_HALVING_TESTNET`, so the
mainnet constant is an arbitrary parameter. -/
def firstHalvingHeight (mainnetFirstHalving : Height) : Network → Height
  | .Mainnet => mainnetFirstHalving
  | .Testnet => FIRST_HALVING_TESTNET

/-- A concrete fixture environment used to instantiate the
environment-quantified theorems at a specific input: the block domain
type is `Unit`, every cached byte table is a small concrete list, the
sapling roots are 32 zero bytes as their `[u8; 32]` type forces, the
maps are empty, and the deserializer accepts everything. -/
def envW : FixtureEnv Unit where
  BLOCK_MAINNET_653599_BYTES := [0]
  BLOCK_MAINNET_982681_BYTES := [1]
  BLOCK_MAINNET_1046400_BYTES := [2]
  BLOCK_TESTNET_583999_BYTES := [3]
  BLOCK_TESTNET_925483_BYTES := [4]
  BLOCK_TESTNET_1116000_BYTES := [5]
  SAPLING_FINAL_ROOT_MAINNET_1046400_BYTES := List.replicate 32 0
  SAPLING_FINAL_ROOT_TESTNET_1116000_BYTES := List.replicate 32 0
  MAINNET_BLOCKS := fun _ => none
  TESTNET_BLOCKS := fun _ => none
  MAINNET_FINAL_SPROUT_ROOTS := fun _ => none
  TESTNET_FINAL_SPROUT_ROOTS := fun _ => none
  zcash_deserialize_into := fun _ => Except.ok ()

/-- C5: for every network value, `is_mainnet` and `is_default_testnet`
disagree (one is the boolean negation of the other on the two current
variants), with `is_mainnet` true exactly on `Mainnet` and
`is_default_testnet` true exactly on `Testnet`. -/
theorem is_mainnet_is_default_testnet_exclusive_exhaustive :
    ∀ n : Network,
      Network.is_mainnet n = !Network.is_default_testnet n ∧
      Network.is_mainnet Network.Mainnet = true ∧
      Network.is_mainnet Network.Testnet = false ∧
      Network.is_default_testnet Network.Testnet = true ∧
      Network.is_default_testnet Network.Mainnet = false := by
  intro n
  cases n <;> exact ⟨rfl, rfl, rfl, rfl, rfl⟩

/-- C6: `get_block_sprout_roots_height` returns, for each network, the
full sparse block table (the very table `get_block_map` returns), the
full per-network sprout-root table, and a first-JoinSplit height of 396
on Mainnet and 2259 on Testnet. -/
theorem get_block_sprout_roots_height_spec :
    ∀ {Block : Type} (env : FixtureEnv Block),
      Network.get_block_sprout_roots_height Network.Mainnet env =
        (Network.get_block_map Network.Mainnet env,
          env.MAINNET_FINAL_SPROUT_ROOTS, 396) ∧
      Network.get_block_sprout_roots_height Network.Testnet env =
        (Network.get_block_map Network.Testnet env,
          env.TESTNET_FINAL_SPROUT_ROOTS, 2259) := by
  intro Block env
  exact ⟨rfl, rfl⟩

/-- C7: the genesis parent hash is the same value for both networks and
is exactly 32 zero bytes, namely the constant
`GENESIS_PREVIOUS_BLOCK_HASH`. -/
theorem genesis_parent_hash_all_zero_across_networks :
    genesisParentHash Network.Mainnet = genesisParentHash Network.Testnet ∧
    genesisParentHash Network.Mainnet = GENESIS_PREVIOUS_BLOCK_HASH ∧
    (genesisParentHash Network.Mainnet).bytes = List.replicate 32 0 ∧
    (genesisParentHash Network.Mainnet).bytes.length = 32 := by
  exact ⟨rfl, rfl, rfl, by decide⟩

/-- C8: the first halving height of the Test network is the defined
constant 1,116,000, and `firstHalvingHeight` is total: whatever the
(externally supplied) mainnet constant is, every network variant has a
defined value. -/
theorem first_halving_testnet_value :
    ∀ mh : Height,
      FIRST_HALVING_TESTNET = Height.mk 1116000 ∧
      firstHalvingHeight mh Network.Testnet = Height.mk 1116000 ∧
      ∀ n : Network, ∃ h : Height, firstHalvingHeight mh n = h := by
  intro mh
  exact ⟨rfl, rfl, fun n => ⟨firstHalvingHeight mh n, rfl⟩⟩

/-- C4: the candidate value that does not apply to the active network is
ignored: on Mainnet the result of `get_block_bytes` (and of
`get_block_sapling_roots_bytes`) is unchanged when the testnet candidate
varies, and on Testnet it is unchanged when the mainnet candidate
varies. -/
theorem inactive_candidate_ignored :
    ∀ {Block : Type} (env : FixtureEnv Block) (m m' t t' : Nat),
      Network.get_block_bytes Network.Mainnet env m t =
        Network.get_block_bytes Network.Mainnet env m t' ∧
      Network.get_block_bytes Network.Testnet env m t =
        Network.get_block_bytes Network.Testnet env m' t ∧
      Network.get_block_sapling_roots_bytes Network.Mainnet env m t =
        Network.get_block_sapling_roots_bytes Network.Mainnet env m t' ∧
      Network.get_block_sapling_roots_bytes Network.Testnet env m t =
        Network.get_block_sapling_roots_bytes Network.Testnet env m' t := by
  intro Block env m m' t t'
  exact ⟨rfl, rfl, rfl, rfl⟩

/-- C9: `get_gen_block` is exactly the lookup of height 0 in the sparse
block table `get_block_map` returns for the same network, and in
particular is `none` whenever that table has no entry at height 0. -/
theorem get_gen_block_is_block_map_at_zero :
    ∀ {Block : Type} (env : FixtureEnv Block) (n : Network),
      Network.get_gen_block n env = Network.get_block_map n env 0 ∧
      (Network.get_block_map n env 0 = none →
        Network.get_gen_block n env = none) := by
  intro Block env n
  cases n with
  | Mainnet => exact ⟨rfl, fun h => h⟩
  | Testnet => exact ⟨rfl, fun h => h⟩

/-- Witness for C9: at the concrete environment `envW`, whose block maps
have no entry at height 0, `get_gen_block` returns `none` on Mainnet. -/
theorem get_gen_block_is_block_map_at_zero_witness :
    Network.get_gen_block Network.Mainnet envW = none := by
  exact (get_gen_block_is_block_map_at_zero envW Network.Mainnet).2 rfl

/-- C1: for every environment and every pair of supplied candidate
values, `get_block_bytes` on a matching value returns exactly the
deserialization of the corresponding cached bytes, and on a
non-matching value fails with the family-tagged error carrying the
caller's supplied value: on Mainnet any `main_bytes` outside
{653599, 982681} yields `NotACachedMainNetBlock main_bytes`, on Testnet
any `test_bytes` outside {583999, 925483} yields
`NotACachedTestNetBlock test_bytes`; in particular Mainnet with supplied
value 0 fails with `NotACachedMainNetBlock 0`. -/
theorem get_block_bytes_dispatch :
    ∀ {Block : Type} (env : FixtureEnv Block) (m t : Nat),
      Network.get_block_bytes Network.Mainnet env 653599 t =
        env.zcash_deserialize_into env.BLOCK_MAINNET_653599_BYTES ∧
      Network.get_block_bytes Network.Mainnet env 982681 t =
        env.zcash_deserialize_into env.BLOCK_MAINNET_982681_BYTES ∧
      Network.get_block_bytes Network.Testnet env m 583999 =
        env.zcash_deserialize_into env.BLOCK_TESTNET_583999_BYTES ∧
      Network.get_block_bytes Network.Testnet env m 925483 =
        env.zcash_deserialize_into env.BLOCK_TESTNET_925483_BYTES ∧
      (¬ m ∈ [653599, 982681] →
        Network.get_block_bytes Network.Mainnet env m t =
          Except.error (SerializationError.NotACachedMainNetBlock m)) ∧
      (¬ t ∈ [583999, 925483] →
        Network.get_block_bytes Network.Testnet env m t =
          Except.error (SerializationError.NotACachedTestNetBlock t)) ∧
      Network.get_block_bytes Network.Mainnet env 0 t =
        Except.error (SerializationError.NotACachedMainNetBlock 0) := by
  intro Block env m t
  refine ⟨rfl, rfl, rfl, rfl, ?_, ?_, rfl⟩
  · intro hm
    simp only [List.mem_cons, List.not_mem_nil, or_false, not_or] at hm
    unfold Network.get_block_bytes
    simp only [Network.is_mainnet, if_true]
    split
    · exact absurd rfl hm.1
    · exact absurd rfl hm.2
    · rfl
  · intro ht
    simp only [List.mem_cons, List.not_mem_nil, or_false, not_or] at ht
    unfold Network.get_block_bytes
    simp only [Network.is_mainnet, if_false, Bool.false_eq_true]
    split
    · exact absurd rfl ht.1
    · exact absurd rfl ht.2
    · rfl

/-- Witness for C1: at the concrete environment `envW` with both
supplied values 0, both hypotheses hold and both networks report the
family-tagged error carrying 0. -/
theorem get_block_bytes_dispatch_witness :
    Network.get_block_bytes Network.Mainnet envW 0 0 =
      Except.error (SerializationError.NotACachedMainNetBlock 0) ∧
    Network.get_block_bytes Network.Testnet envW 0 0 =
      Except.error (SerializationError.NotACachedTestNetBlock 0) := by
  have h := get_block_bytes_dispatch envW 0 0
  exact ⟨h.2.2.2.2.1 (by decide), h.2.2.2.2.2.1 (by decide)⟩

/-- C2: `get_block_sapling_roots_bytes` on Mainnet with supplied value
1046400 succeeds with the cached block bytes paired with the cached
sapling root — a root of exactly 32 bytes whenever the environment's
root field has the length its `[u8; 32]` type forces — while Mainnet
with supplied value 1116000 fails with
`NotACachedMainNetSaplingRootBytes 1116000`; symmetrically, Testnet
succeeds exactly on 1116000 and otherwise fails with
`NotACachedTestNetSaplingRootBytes` carrying the supplied value. -/
theorem get_block_sapling_roots_bytes_dispatch :
    ∀ {Block : Type} (env : FixtureEnv Block) (m t : Nat),
      Network.get_block_sapling_roots_bytes Network.Mainnet env 1046400 t =
        Except.ok (env.BLOCK_MAINNET_1046400_BYTES,
          env.SAPLING_FINAL_ROOT_MAINNET_1046400_BYTES) ∧
      (env.SAPLING_FINAL_ROOT_MAINNET_1046400_BYTES.length = 32 →
        ∀ b r : List Nat,
          Network.get_block_sapling_roots_bytes Network.Mainnet env 1046400 t =
            Except.ok (b, r) → r.length = 32) ∧
      Network.get_block_sapling_roots_bytes Network.Mainnet env 1116000 t =
        Except.error (SerializationError.NotACachedMainNetSaplingRootBytes 1116000) ∧
      Network.get_block_sapling_roots_bytes Network.Testnet env m 1116000 =
        Except.ok (env.BLOCK_TESTNET_1116000_BYTES,
          env.SAPLING_FINAL_ROOT_TESTNET_1116000_BYTES) ∧
      (t ≠ 1116000 →
        Network.get_block_sapling_roots_bytes Network.Testnet env m t =
          Except.error (SerializationError.NotACachedTestNetSaplingRootBytes t)) := by
  intro Block env m t
  refine ⟨rfl, ?_, rfl, rfl, ?_⟩
  · intro hlen b r hok
    have hpair : (env.BLOCK_MAINNET_1046400_BYTES,
        env.SAPLING_FINAL_ROOT_MAINNET_1046400_BYTES) = (b, r) :=
      Except.ok.inj hok
    have hr : env.SAPLING_FINAL_ROOT_MAINNET_1046400_BYTES = r :=
      congrArg Prod.snd hpair
    rw [← hr]
    exact hlen
  · intro ht
    unfold Network.get_block_sapling_roots_bytes
    simp only [Network.is_mainnet, if_false, Bool.false_eq_true]

/-- Witness for C2: at the concrete environment `envW` (whose sapling
root fields hold 32 zero bytes) with both supplied values 0, the length
hypothesis is discharged, the Mainnet success case returns a 32-byte
root, and the Testnet call with supplied value 0 fails with the
test-family error carrying 0. -/
theorem get_block_sapling_roots_bytes_dispatch_witness :
    Network.get_block_sapling_roots_bytes Network.Mainnet envW 1046400 0 =
      Except.ok (envW.BLOCK_MAINNET_1046400_BYTES,
        envW.SAPLING_FINAL_ROOT_MAINNET_1046400_BYTES) ∧
    envW.SAPLING_FINAL_ROOT_MAINNET_1046400_BYTES.length = 32 ∧
    Network.get_block_sapling_roots_bytes Network.Testnet envW 0 0 =
      Except.error (SerializationError.NotACachedTestNetSaplingRootBytes 0) := by
  have h := get_block_sapling_roots_bytes_dispatch envW 0 0
  exact ⟨h.1, h.2.1 (by decide) envW.BLOCK_MAINNET_1046400_BYTES
    envW.SAPLING_FINAL_ROOT_MAINNET_1046400_BYTES h.1,
    h.2.2.2.2 (by decide)⟩

/-- C3: cross-network lengths never match: on Testnet, supplying the
test candidate 583999 resolves to the cached testnet bytes (so the call
succeeds whenever the deserializer accepts those bytes), while supplying
the production-only length 653599 as the test candidate fails with the
test-family error carrying exactly 653599. -/
theorem cross_network_length_no_match :
    ∀ {Block : Type} (env : FixtureEnv Block) (m : Nat),
      ((env.zcash_deserialize_into env.BLOCK_TESTNET_583999_BYTES).isOk = true →
        (Network.get_block_bytes Network.Testnet env m 583999).isOk = true) ∧
      Network.get_block_bytes Network.Testnet env m 653599 =
        Except.error (SerializationError.NotACachedTestNetBlock 653599) := by
  intro Block env m
  exact ⟨fun h => h, rfl⟩

/-- Witness for C3: at the concrete environment `envW`, whose
deserializer accepts every input, the Testnet call with test candidate
583999 succeeds, and the Testnet call with test candidate 653599 fails
with the test-family error carrying 653599. -/
theorem cross_network_length_no_match_witness :
    (Network.get_block_bytes Network.Testnet envW 0 583999).isOk = true ∧
    Network.get_block_bytes Network.Testnet envW 0 653599 =
      Except.error (SerializationError.NotACachedTestNetBlock 653599) := by
  have h := cross_network_length_no_match envW 0
  exact ⟨h.1 rfl, h.2⟩

/-- C10: `get_block_sapling_roots_bytes` involves no deserialization:
for every environment, network and pair of supplied values, the result
is either `Except.ok` of the raw cached bytes paired with the cached
root returned unmodified, or one of the two family-tagged
`NotACached...SaplingRootBytes` errors carrying the relevant supplied
value — in particular no `Parse` (deserialization) error and no other
error kind occurs for any deserializer behaviour. -/
theorem get_block_sapling_roots_bytes_no_deserialization :
    ∀ {Block : Type} (env : FixtureEnv Block) (n : Network) (m t : Nat),
      Network.get_block_sapling_roots_bytes n env m t =
        Except.ok (env.BLOCK_MAINNET_1046400_BYTES,
          env.SAPLING_FINAL_ROOT_MAINNET_1046400_BYTES) ∨
      Network.get_block_sapling_roots_bytes n env m t =
        Except.ok (env.BLOCK_TESTNET_1116000_BYTES,
          env.SAPLING_FINAL_ROOT_TESTNET_1116000_BYTES) ∨
      Network.get_block_sapling_roots_bytes n env m t =
        Except.error (SerializationError.NotACachedMainNetSaplingRootBytes m) ∨
      Network.get_block_sapling_roots_bytes n env m t =
        Except.error (SerializationError.NotACachedTestNetSaplingRootBytes t) := by
  intro Block env n m t
  cases n with
  | Mainnet =>
    unfold Network.get_block_sapling_roots_bytes
    simp only [Network.is_mainnet, if_true]
    split
    · exact Or.inl rfl
    · exact Or.inr (Or.inr (Or.inl rfl))
  | Testnet =>
    unfold Network.get_block_sapling_roots_bytes
    simp only [Network.is_mainnet, Bool.false_eq_true, if_false]
    split
    · exact Or.inr (Or.inl rfl)
    · exact Or.inr (Or.inr (Or.inr rfl))
